import Mathlib

/-!
Verification of pyfc4 (`pyfc4/models.py`): a shallow embedding of the
LDP client's data model and operations, with theorems about the graph
diff engine, resource type resolver, resource lifecycle state machine,
SPARQL update synthesizer, and transaction manager.

Conventions of the embedding:
* RDF graphs are lists of ground triples with set semantics (rdflib's
  `Graph` is a set of triples; blank-node canonicalization performed by
  `rdflib.compare.to_isomorphic` is the identity on ground graphs).
* A triple's predicate URI is split as `predNs ++ predLocal`, mirroring
  what `graph.compute_qname(p)` returns for the predicate.
* The HTTP transport (an external collaborator per the design) is a
  scripted oracle: a `World` holds the list of responses the server will
  return, in order, and a log of the requests issued so far.
* RDF payload decoding (the external Graph Codec) is modelled by
  responses carrying their payload already decoded as a `Graph`.
* Python exceptions are `Except.error`; Python `None` results are
  `Option.none` / `PyValue.pyNone`.
-/

namespace Pyfc4

/-- A ground RDF triple.  The predicate URI is `predNs ++ predLocal`. -/
structure Triple where
  subj : String
  predNs : String
  predLocal : String
  obj : String
deriving DecidableEq, Repr

/-- An rdflib graph: a set of triples, kept in insertion order. -/
abbrev Graph := List Triple

/-- `rdflib.Graph.add`: set semantics, adding an existing triple is a no-op. -/
def Graph.add (g : Graph) (t : Triple) : Graph :=
  if t ∈ g then g else g ++ [t]

/-- `rdflib.Graph.remove`. -/
def Graph.remove (g : Graph) (t : Triple) : Graph :=
  g.filter (fun u => decide (u ≠ t))

/-- `rdflib.compare.graph_diff(to_isomorphic(g1), to_isomorphic(g2))`:
returns `(in_both, in_first, in_second)`; on ground graphs the
canonicalization is the identity and the result is the set
intersection and the two set differences. -/
def graph_diff (g1 g2 : Graph) : Graph × Graph × Graph :=
  (g1.filter (fun t => decide (t ∈ g2)),
   g1.filter (fun t => decide (t ∉ g2)),
   g2.filter (fun t => decide (t ∉ g1)))

/-- The three graphs set by `Resource._diff_graph` (`self.rdf.diffs`). -/
structure Diffs where
  overlap : Graph
  removed : Graph
  added : Graph
deriving DecidableEq, Repr

/-- `self.rdf` of a `Resource`: payload data (already decoded by the
external Graph Codec), prefix bindings, the working graph
(`self.rdf.graph`) and the snapshot graph (`self.rdf._orig_graph`). -/
structure RdfState where
  data : Option Graph
  prefixes : List (String × String)
  graph : Graph
  origGraph : Graph
  diffs : Option Diffs := none
deriving DecidableEq, Repr

/-- `Resource._diff_graph`: diff snapshot (`_orig_graph`) against the
working graph (`graph`), yielding overlap / removed / added. -/
def diff_graph (rdf : RdfState) : Diffs :=
  let (overlap, removed, added) := graph_diff rdf.origGraph rdf.graph
  { overlap := overlap, removed := removed, added := added }

/-! ## HTTP transport facade (external collaborator, scripted oracle) -/

/-- A request issued through `API.http_request` (verb and target URI;
payload bodies are handed to the transport and not part of the log). -/
structure Request where
  verb : String
  uri : String
deriving DecidableEq, Repr

/-- A transport response: status code, body text (`response.text`),
headers, the comma-split elements of the `Link` header (`links`), and
the RDF payload as decoded by the external Graph Codec (`body_graph`).
A missing `Link` header is represented as `links = []`. -/
structure HttpResponse where
  status_code : Nat
  text : String := ""
  headers : List (String × String) := []
  links : List String := []
  body_graph : Graph := []
deriving DecidableEq, Repr

/-- `response.headers[k]` lookup (`none` for Python's `KeyError`). -/
def HttpResponse.getHeader (r : HttpResponse) (k : String) : Option String :=
  (r.headers.find? (fun kv => kv.1 == k)).map Prod.snd

/-- The transport world: the scripted responses still to be served, and
the log of requests issued so far. -/
structure World where
  script : List HttpResponse
  log : List Request := []
deriving DecidableEq, Repr

/-- `API.http_request`: consume the next scripted response, log the
request.  An exhausted script means the transport has no answer, which
never occurs in the runs below. -/
def http_request (verb uri : String) (w : World) : Except String (HttpResponse × World) :=
  match w.script with
  | [] => Except.error "transport: no scripted response"
  | r :: rest => Except.ok (r, ⟨rest, w.log ++ [⟨verb, uri⟩]⟩)

/-! ## Resource type resolver (`API.parse_resource_type`) -/

/-- The four LDP resource variants (the Python classes `NonRDFSource`,
`BasicContainer`, `DirectContainer`, `IndirectContainer`). -/
inductive ResourceKind
  | nonRDFSource
  | basicContainer
  | directContainer
  | indirectContainer
deriving DecidableEq, Repr

/-- `s.startswith(p)` (kernel-computable form of `String.startsWith`). -/
def str_startswith (s p : String) : Bool :=
  p.data.isPrefixOf s.data

/-- `link.split(";")[0]`: the part of a link element before the first
semicolon. -/
def link_value (link : String) : String :=
  ⟨link.data.takeWhile (fun c => c != ';')⟩

/-- The link-element filter inside `API.parse_resource_type`:
`[link.split(";")[0] for link in response.headers['Link'].split(', ')
if link.startswith('<http://www.w3.org/ns/ldp#')]`. -/
def parse_links (response : HttpResponse) : List String :=
  response.links.filterMap (fun link =>
    if str_startswith link "<http://www.w3.org/ns/ldp#" then some (link_value link) else none)

def ldpNonRDFSource : String := "<http://www.w3.org/ns/ldp#NonRDFSource>"
def ldpBasicContainer : String := "<http://www.w3.org/ns/ldp#BasicContainer>"
def ldpDirectContainer : String := "<http://www.w3.org/ns/ldp#DirectContainer>"
def ldpIndirectContainer : String := "<http://www.w3.org/ns/ldp#IndirectContainer>"

/-- `API.parse_resource_type`: select the resource variant from the LDP
type links, `none` for Python's `False` ("type unknown"). -/
def parse_resource_type (response : HttpResponse) : Option ResourceKind :=
  let links := parse_links response
  if ldpNonRDFSource ∈ links then some ResourceKind.nonRDFSource
  else if ldpBasicContainer ∈ links then some ResourceKind.basicContainer
  else if ldpDirectContainer ∈ links then some ResourceKind.directContainer
  else if ldpIndirectContainer ∈ links then some ResourceKind.indirectContainer
  else none

/-! ## SPARQL update synthesizer (`SparqlUpdate`) -/

/-- `SparqlUpdate`: prefixes handed over from the resource
(`self.rdf.prefixes`) and the three diff graphs. -/
structure SparqlUpdate where
  prefixes : List (String × String)
  diffs : Diffs
deriving DecidableEq, Repr

/-- First half of `SparqlUpdate._derive_namespaces`: the set of unique
namespace URIs of predicates across the three diff graphs
(`self.update_namespaces`). -/
def SparqlUpdate.update_namespaces (sq : SparqlUpdate) : List String :=
  ((sq.diffs.overlap ++ sq.diffs.removed ++ sq.diffs.added).map Triple.predNs).dedup

/-- Second half of `SparqlUpdate._derive_namespaces`: pin each referenced
namespace URI to a prefix by equality lookup over `self.prefixes`
(`self.update_prefixes`).  A namespace URI with no matching binding is
silently skipped — the loop has no else branch and raises nothing. -/
def SparqlUpdate.update_prefixes (sq : SparqlUpdate) : List (String × String) :=
  sq.prefixes.filter (fun kv => decide (kv.2 ∈ sq.update_namespaces))

/-- One `PREFIX k: <uri>` declaration line of the update document. -/
def prefix_line (kv : String × String) : String :=
  "PREFIX " ++ kv.1 ++ ": <" ++ kv.2 ++ ">\n"

/-- N-Triples serialization of one triple (`graph.serialize(format='nt')`
emits one such line per triple; objects carry their own quoting). -/
def Triple.nt (t : Triple) : String :=
  "<" ++ t.subj ++ "> <" ++ t.predNs ++ t.predLocal ++ "> " ++ t.obj ++ " .\n"

/-- N-Triples serialization of a graph. -/
def Graph.serialize_nt (g : Graph) : String :=
  String.join (g.map Triple.nt)

/-- `SparqlUpdate.build_query`: prefix declarations, a DELETE block from
the removed partition, an INSERT block from the added partition, and an
empty WHERE clause.  Total: it never raises. -/
def SparqlUpdate.build_query (sq : SparqlUpdate) : String :=
  String.join (sq.update_prefixes.map prefix_line)
    ++ "\nDELETE \x7b\n" ++ Graph.serialize_nt sq.diffs.removed ++ "\x7d\n\n"
    ++ "\nINSERT \x7b\n" ++ Graph.serialize_nt sq.diffs.added ++ "\x7d\n\n"
    ++ "WHERE \x7b\x7d"

/-! ## Repository and resources -/

/-- `Repository`: root URI (trailing slash ensured at construction),
namespace context, default serialization.  Credentials and the
transaction table are not load-bearing for the claims. -/
structure Repo where
  root : String
  context : List (String × String)
  default_serialization : String := "application/rdf+xml"
deriving DecidableEq, Repr

/-- `Repository.parse_uri`: `none` means the root; a string not starting
with `http` is a short uri expanded against the root. -/
def Repo.parse_uri (repo : Repo) (uri : Option String) : String :=
  match uri with
  | none => repo.root
  | some u => if str_startswith u "http" then u else repo.root ++ u

/-- `NonRDFSource` transfer-state record (`self.binary`).  `range` is a
method handle in the source and carries no state. -/
structure BinaryState where
  delivery : Option String := none
  data : Option String := none
  stream : Bool := false
  mimetype : Option String := none
  location : Option String := none
deriving DecidableEq, Repr

/-- A `Resource` (with its concrete class as `kind`): identified by URI,
carrying response headers, the last status code, the `exists` flag
(field `exists_`; `exists` is reserved in Lean), the RDF state, and for
`NonRDFSource` the binary transfer record.  `rdf` is an `Option`
because `_empty_resource_attributes` stores Python `None` there (see
`Resource.empty_resource_attributes`). -/
structure Resource where
  kind : ResourceKind
  repo : Repo
  uri : String
  headers : List (String × String)
  status_code : Option Nat
  exists_ : Bool
  rdf : Option RdfState
  binary : Option BinaryState
deriving DecidableEq, Repr

/-- Dictionary assignment `headers[k] = v`. -/
def dict_set (hs : List (String × String)) (k v : String) : List (String × String) :=
  if (hs.find? (fun kv => kv.1 == k)).isSome then
    hs.map (fun kv => if kv.1 == k then (k, v) else kv)
  else hs ++ [(k, v)]

/-- `Resource._parse_graph`: if the resource exists, the working graph is
the decoded payload, else an empty graph; the snapshot `_orig_graph` is
a deep copy of it.  (Namespace discovery from the parsed payload is part
of the external Graph Codec and not modelled.) -/
def parse_graph (exists_ : Bool) (rdf : RdfState) : RdfState :=
  let g : Graph := if exists_ then rdf.data.getD [] else []
  { rdf with graph := g, origGraph := g }

/-- `Resource._build_rdf`: fresh RDF state with prefixes seeded from the
repository context, then `_parse_graph`.  In Python this method mutates
`self.rdf` in place and RETURNS `None`. -/
def build_rdf (repo : Repo) (exists_ : Bool) (data : Option Graph) : RdfState :=
  parse_graph exists_
    { data := data, prefixes := repo.context, graph := [], origGraph := [], diffs := none }

/-- `Resource.__init__` (together with the trivial subclass
constructors): parse the uri, record headers and status, set
`exists = (status_code == 200)`, build the RDF state, and for
`NonRDFSource` the fresh binary record.  (`parse_binary`'s extra GET for
an already-existing NonRDFSource is outside the claims and not
modelled.) -/
def Resource.init (kind : ResourceKind) (repo : Repo) (uri : Option String)
    (data : Option Graph := none) (headers : List (String × String) := [])
    (status_code : Option Nat := none) : Resource :=
  let ex := status_code == some 200
  { kind := kind
    repo := repo
    uri := repo.parse_uri uri
    headers := headers
    status_code := status_code
    exists_ := ex
    rdf := some (build_rdf repo ex data)
    binary := if kind == ResourceKind.nonRDFSource then some {} else none }

/-- `Repository.get_resource`: HEAD probe; 404 returns Python `False`
(`none` here); 200 resolves the type from the Link header and GETs
`uri/fcr:metadata`; anything else raises.  (When `parse_resource_type`
returns `False`, Python then calls `False(...)`, a `TypeError`.) -/
def Repo.get_resource (repo : Repo) (uri : String) (w : World) :
    Except String (Option Resource × World) :=
  let uri := repo.parse_uri (some uri)
  match http_request "HEAD" uri w with
  | Except.error e => Except.error e
  | Except.ok (head_response, w) =>
    if head_response.status_code == 404 then Except.ok (none, w)
    else if head_response.status_code == 200 then
      match parse_resource_type head_response with
      | none => Except.error "TypeError: bool object is not callable"
      | some kind =>
        match http_request "GET" (uri ++ "/fcr:metadata") w with
        | Except.error e => Except.error e
        | Except.ok (get_response, w) =>
          Except.ok (some (Resource.init kind repo (some uri)
            (some get_response.body_graph) get_response.headers
            (some get_response.status_code)), w)
    else Except.error "HTTP error retrieving resource uri"

/-! ## Resource lifecycle state machine -/

/-- `Resource.check_exists`: HEAD the uri, always record the new status
code; `exists` becomes true on 200, false on 410 or 404, and is left
untouched for every other status; return `self.exists`. -/
def Resource.check_exists (res : Resource) (w : World) :
    Except String (Bool × Resource × World) :=
  match http_request "HEAD" res.uri w with
  | Except.error e => Except.error e
  | Except.ok (response, w) =>
    let res := { res with status_code := some response.status_code }
    let res :=
      if response.status_code == 200 then { res with exists_ := true }
      else if response.status_code == 410 then { res with exists_ := false }
      else if response.status_code == 404 then { res with exists_ := false }
      else res
    Except.ok (res.exists_, res, w)

/-- `Resource._empty_resource_attributes`: status 404, empty headers,
`exists=False`, fresh binary record for a `NonRDFSource` — and
`self.rdf = self._build_rdf()`.  `_build_rdf` mutates `self.rdf` but
returns `None`, so this assignment stores Python `None` in `self.rdf`
(hence `rdf := none`). -/
def Resource.empty_resource_attributes (res : Resource) : Resource :=
  { res with
    status_code := some 404
    headers := []
    exists_ := false
    rdf := none
    binary := if res.kind == ResourceKind.nonRDFSource then some {} else res.binary }

/-- `Resource.delete`: DELETE the uri; clear attributes only on 204 (no
branch for any other status); if requested, always also DELETE the
tombstone (its response is not inspected); return `True`
unconditionally. -/
def Resource.delete (res : Resource) (remove_tombstone : Bool) (w : World) :
    Except String (Bool × Resource × World) :=
  match http_request "DELETE" res.uri w with
  | Except.error e => Except.error e
  | Except.ok (response, w) =>
    let res := if response.status_code == 204 then res.empty_resource_attributes else res
    if remove_tombstone then
      match http_request "DELETE" (res.uri ++ "/fcr:tombstone") w with
      | Except.error e => Except.error e
      | Except.ok (_, w) => Except.ok (true, res, w)
    else Except.ok (true, res, w)

/-- `Resource.refresh`: re-fetch via `get_resource`.  When the resource
is gone, `get_resource` returns Python `False`, and the guard
`type(updated_self) != type(self)` fires FIRST (`bool` differs from the
resource class), so refresh raises; the `else` branch that would call
`_empty_resource_attributes` is unreachable.  On a matching re-fetch,
adopt status, payload data, headers and `exists`, and re-derive the
graphs via `_parse_graph`; cached versions are cleared (not modelled). -/
def Resource.refresh (res : Resource) (w : World) : Except String (Resource × World) :=
  match res.repo.get_resource res.uri w with
  | Except.error e => Except.error e
  | Except.ok (updated_self, w) =>
    match updated_self with
    | none => Except.error "Instantiated resource class, but repository reports this resource is bool"
    | some u =>
      if u.kind != res.kind then
        Except.error "Instantiated resource class, but repository reports another type"
      else
        match res.rdf, u.rdf with
        | some rdf, some urdf =>
          let rdf := parse_graph u.exists_ { rdf with data := urdf.data }
          Except.ok ({ res with
            status_code := u.status_code
            headers := u.headers
            exists_ := u.exists_
            rdf := some rdf }, w)
        | _, _ => Except.error "AttributeError: NoneType has no attribute data"

/-- `NonRDFSource._prep_binary_mimetype`: a mimetype or a Content-Type
header is required; a mimetype without the header is copied into the
header; an existing Content-Type header wins. -/
def Resource.prep_binary_mimetype (res : Resource) : Except String Resource :=
  match res.binary with
  | none => Except.error "AttributeError: NoneType has no attribute mimetype"
  | some b =>
    if b.mimetype.isNone && ((res.headers.find? (fun kv => kv.1 == "Content-Type")).isNone) then
      Except.error "to create/update NonRDFSource, mimetype or Content-Type header is required"
    else if b.mimetype.isSome && ((res.headers.find? (fun kv => kv.1 == "Content-Type")).isNone) then
      Except.ok { res with headers := dict_set res.headers "Content-Type" (b.mimetype.getD "") }
    else Except.ok res

/-- `NonRDFSource._prep_binary_content`: requires content from
`binary.data`, `binary.location` or a Content-Location header; picks the
delivery mode (header beats location beats payload). -/
def Resource.prep_binary_content (res : Resource) : Except String Resource :=
  match res.binary with
  | none => Except.error "AttributeError: NoneType has no attribute data"
  | some b =>
    let hasCL := ((res.headers.find? (fun kv => kv.1 == "Content-Location")).isSome)
    if b.data.isNone && b.location.isNone && !hasCL then
      Except.error "creating/updating NonRDFSource requires content from self.binary.data, self.binary.location, or the Content-Location header"
    else if hasCL then
      Except.ok { res with binary := some { b with delivery := some "header" } }
    else if b.location.isSome then
      Except.ok { res with
        headers := dict_set res.headers "Content-Location" (b.location.getD "")
        binary := some { b with delivery := some "header" } }
    else if b.data.isSome then
      Except.ok { res with binary := some { b with delivery := some "payload" } }
    else Except.ok res

/-- `NonRDFSource._prep_binary_data`: mimetype prep then content prep. -/
def Resource.prep_binary_data (res : Resource) : Except String Resource :=
  match res.prep_binary_mimetype with
  | Except.error e => Except.error e
  | Except.ok res => res.prep_binary_content

/-- `Resource._handle_create`, parameterized by `retry`, which stands
for the bound method call `self.create()` in the 410 branch — note the
Python source retries with all-default arguments (POST, no tombstone
handling, default serialization, refresh on).  201 adopts the
server-confirmed URI from the response body and refreshes unless the
caller opted out; 404/409/415 and unknown statuses raise; 410 with
`ignore_tombstone` deletes the tombstone and, if that returns 204,
retries once. -/
def Resource.handle_create
    (retry : Resource → World → Except String (Bool × Resource × World))
    (res : Resource) (response : HttpResponse) (ignore_tombstone refresh : Bool)
    (w : World) : Except String (Bool × Resource × World) :=
  if response.status_code == 201 then
    let res := { res with uri := res.repo.parse_uri (some response.text) }
    if refresh then
      match res.refresh w with
      | Except.error e => Except.error e
      | Except.ok (res, w) => Except.ok (true, res, w)
    else Except.ok (true, res, w)
  else if response.status_code == 404 then
    Except.error "HTTP 404, for this POST request target location does not exist"
  else if response.status_code == 409 then
    Except.error "HTTP 409, resource already exists"
  else if response.status_code == 410 then
    if ignore_tombstone then
      match http_request "DELETE" (res.uri ++ "/fcr:tombstone") w with
      | Except.error e => Except.error e
      | Except.ok (tomb_response, w) =>
        if tomb_response.status_code == 204 then
          match retry res w with
          | Except.error e => Except.error e
          | Except.ok (_, res, w) => Except.ok (true, res, w)
        else Except.error "could not remove tombstone"
    else Except.error "tombstone detected, aborting"
  else if response.status_code == 415 then
    Except.error "HTTP 415, unsupported media type"
  else
    Except.error "unknown error creating resource"

/-- `Resource.create`: abort if `exists` is already true (no transport
call); PUT when `specify_uri` else POST; binary prep for a
`NonRDFSource`, otherwise serialize the working graph (the payload goes
to the transport, not the log) and set the Content-Type header from the
requested or default serialization; then fire the request and hand the
response to `_handle_create`.  `fuel` bounds the
`_handle_create → create` retry recursion; every run below needs depth
at most 2. -/
def Resource.create : Nat → Resource → Bool → Bool → Option String → Bool → World →
    Except String (Bool × Resource × World)
  | 0, _, _, _, _, _, _ => Except.error "retry fuel exhausted"
  | fuel + 1, res, specify_uri, ignore_tombstone, serialization_format, refresh, w =>
    if res.exists_ then Except.error "resource exists attribute True, aborting"
    else
      let verb := if specify_uri then "PUT" else "POST"
      let prepped : Except String Resource :=
        if res.kind == ResourceKind.nonRDFSource then res.prep_binary_data
        else
          match res.rdf with
          | none => Except.error "AttributeError: NoneType has no attribute graph"
          | some _ =>
            let fmt := serialization_format.getD res.repo.default_serialization
            Except.ok { res with headers := dict_set res.headers "Content-Type" fmt }
      match prepped with
      | Except.error e => Except.error e
      | Except.ok res =>
        match http_request verb res.uri w with
        | Except.error e => Except.error e
        | Except.ok (response, w) =>
          Resource.handle_create
            (fun r w2 => Resource.create fuel r false false none true w2)
            res response ignore_tombstone refresh w

/-- Python values a method can hand back (`True`, `None`, or a string),
for `Resource.update`'s three-way result. -/
inductive PyValue
  | pyTrue
  | pyNone
  | pyStr (s : String)
deriving DecidableEq, Repr

/-- `Resource.update`: run `_diff_graph` (storing `self.rdf.diffs`),
build the SPARQL update; with `sparql_query_only` return just the query
string; otherwise PATCH it, re-PUT the payload for a `NonRDFSource`,
and on a 204 PATCH response refresh (if requested) and return `True` —
any other status falls through to Python's implicit `None`. -/
def Resource.update (res : Resource) (sparql_query_only refresh : Bool) (w : World) :
    Except String (PyValue × Resource × World) :=
  match res.rdf with
  | none => Except.error "AttributeError: NoneType has no attribute _orig_graph"
  | some rdf =>
    let rdf := { rdf with diffs := some (diff_graph rdf) }
    let res := { res with rdf := some rdf }
    let sq : SparqlUpdate := { prefixes := rdf.prefixes, diffs := diff_graph rdf }
    if sparql_query_only then Except.ok (PyValue.pyStr sq.build_query, res, w)
    else
      match http_request "PATCH" res.uri w with
      | Except.error e => Except.error e
      | Except.ok (response, w) =>
        let afterBinary : Except String (Resource × World) :=
          if res.kind == ResourceKind.nonRDFSource then
            match res.prep_binary_data with
            | Except.error e => Except.error e
            | Except.ok res =>
              match http_request "PUT" res.uri w with
              | Except.error e => Except.error e
              | Except.ok (_, w) => Except.ok (res, w)
          else Except.ok (res, w)
        match afterBinary with
        | Except.error e => Except.error e
        | Except.ok (res, w) =>
          if response.status_code == 204 then
            if refresh then
              match res.refresh w with
              | Except.error e => Except.error e
              | Except.ok (res, w) => Except.ok (PyValue.pyTrue, res, w)
            else Except.ok (PyValue.pyTrue, res, w)
          else Except.ok (PyValue.pyNone, res, w)

/-! ## Transaction manager -/

/-- `Transaction`: a repository view re-rooted at the server-issued
transaction URI, with expiry and active flag. -/
structure Transaction where
  root : String
  name : String
  expires : Option String
  active : Bool
deriving DecidableEq, Repr

/-- `Transaction.keep_alive`: POST `{root}fcr:tx`; 204 renews the expiry
from the Expires header and returns `True`; 410 marks the transaction
inactive and returns `False`; ANY other status (404 included) raises. -/
def Transaction.keep_alive (txn : Transaction) (w : World) :
    Except String (Bool × Transaction × World) :=
  match http_request "POST" (txn.root ++ "fcr:tx") w with
  | Except.error e => Except.error e
  | Except.ok (txn_response, w) =>
    if txn_response.status_code == 204 then
      match txn_response.getHeader "Expires" with
      | none => Except.error "KeyError: Expires"
      | some exp =>
        Except.ok (true, { txn with active := true, expires := some exp }, w)
    else if txn_response.status_code == 410 then
      Except.ok (false, { txn with active := false }, w)
    else Except.error "HTTP error, could not continue transaction"

/-- `Transaction._close`: POST `{root}fcr:tx/fcr:{close_type}`; 204
deactivates and returns `True`; 404 or 410 deactivates and returns
`False`; any other status raises. -/
def Transaction.close_txn (txn : Transaction) (close_type : String) (w : World) :
    Except String (Bool × Transaction × World) :=
  match http_request "POST" (txn.root ++ "fcr:tx/fcr:" ++ close_type) w with
  | Except.error e => Except.error e
  | Except.ok (txn_response, w) =>
    if txn_response.status_code == 204 then
      Except.ok (true, { txn with active := false }, w)
    else if txn_response.status_code == 404 || txn_response.status_code == 410 then
      Except.ok (false, { txn with active := false }, w)
    else Except.error "HTTP error, could not commit transaction"

/-- `Transaction.commit`: `self._close('commit')`. -/
def Transaction.commit (txn : Transaction) (w : World) :
    Except String (Bool × Transaction × World) :=
  txn.close_txn "commit" w

/-- `Transaction.rollback`: `self._close('rollback')`. -/
def Transaction.rollback (txn : Transaction) (w : World) :
    Except String (Bool × Transaction × World) :=
  txn.close_txn "rollback" w

/-! ## Concrete fixtures for scenario runs -/

/-- A repository fixture with a small namespace context. -/
def repo0 : Repo :=
  { root := "http://localhost:8080/rest/"
    context := [("rdf", "http://www.w3.org/1999/02/22-rdf-syntax-ns#"),
                ("ldp", "http://www.w3.org/ns/ldp#"),
                ("dc", "http://purl.org/dc/elements/1.1/")] }

/-- A fresh, not-yet-created `BasicContainer` at path `x`
(`BasicContainer(repo, 'x')`). -/
def res0 : Resource := Resource.init ResourceKind.basicContainer repo0 (some "x")

/-- An already-retrieved `BasicContainer` at path `x` (constructed from a
200 response, so `exists=True`). -/
def resExisting : Resource :=
  Resource.init ResourceKind.basicContainer repo0 (some "x") (some []) [] (some 200)

/-- The absolute URI of the `x` fixtures. -/
def resXuri : String := "http://localhost:8080/rest/x"

/-- A HEAD response typing the resource as an LDP BasicContainer. -/
def basicHead : HttpResponse :=
  { status_code := 200
    links := ["<http://www.w3.org/ns/ldp#Resource>;rel=\"type\"",
              "<http://www.w3.org/ns/ldp#BasicContainer>;rel=\"type\""] }

/-- A HEAD response carrying both NonRDFSource and BasicContainer type
links. -/
def nonrdfBasicHead : HttpResponse :=
  { status_code := 200
    links := ["<http://www.w3.org/ns/ldp#NonRDFSource>;rel=\"type\"",
              "<http://www.w3.org/ns/ldp#BasicContainer>;rel=\"type\""] }

/-- A HEAD response with no LDP type link at all. -/
def plainHead : HttpResponse :=
  { status_code := 200
    links := ["<http://example.org/other>;rel=\"describedby\""] }

/-- A 200 metadata GET response with an empty decoded graph. -/
def metadataResp : HttpResponse :=
  { status_code := 200, headers := [("Content-Type", "application/rdf+xml")] }

/-- Server script for the tombstone-recovery attempt on `x`: the create
hits a tombstone (410), the tombstone delete succeeds (204), the
retried create succeeds (201), and the post-create refresh finds a
BasicContainer (HEAD 200 + metadata GET 200). -/
def tombstoneScript : List HttpResponse :=
  [{ status_code := 410 },
   { status_code := 204 },
   { status_code := 201, text := "http://localhost:8080/rest/x" },
   basicHead,
   metadataResp]

/-- The tombstone-recovery run: `create(specify_uri=True,
ignore_tombstone=True)` on the fresh resource at `x` against
`tombstoneScript`. -/
def createRun : Except String (Bool × Resource × World) :=
  Resource.create 2 res0 true true none true { script := tombstoneScript }

/-- A `SparqlUpdate` whose added partition references a namespace URI
(`http://example.org/unknown#`) that has no binding among the
prefixes. -/
def sqUnknown : SparqlUpdate :=
  { prefixes := [("dc", "http://purl.org/dc/elements/1.1/")]
    diffs := { overlap := []
               removed := []
               added := [{ subj := "http://localhost:8080/rest/x"
                           predNs := "http://example.org/unknown#"
                           predLocal := "mystery"
                           obj := "\"v\"" }] } }

/-- An open transaction fixture. -/
def txn0 : Transaction :=
  { root := "http://localhost:8080/rest/tx:83e34464/"
    name := "t"
    expires := none
    active := true }

end Pyfc4

namespace Pyfc4

/-- C1: the diff computed before an update partitions the triples into
unchanged/overlap, removed and added such that added together with
unchanged equals the working graph, removed together with unchanged
equals the snapshot graph, and the three parts are pairwise disjoint. -/
theorem diff_graph_partitions (rdf : RdfState) (t : Triple) :
    ((t ∈ (diff_graph rdf).added ∨ t ∈ (diff_graph rdf).overlap) ↔ t ∈ rdf.graph)
    ∧ ((t ∈ (diff_graph rdf).removed ∨ t ∈ (diff_graph rdf).overlap) ↔ t ∈ rdf.origGraph)
    ∧ ¬(t ∈ (diff_graph rdf).removed ∧ t ∈ (diff_graph rdf).added)
    ∧ ¬(t ∈ (diff_graph rdf).overlap ∧ t ∈ (diff_graph rdf).removed)
    ∧ ¬(t ∈ (diff_graph rdf).overlap ∧ t ∈ (diff_graph rdf).added) := by
  simp only [diff_graph, graph_diff, List.mem_filter, decide_eq_true_eq]
  by_cases h1 : t ∈ rdf.origGraph <;> by_cases h2 : t ∈ rdf.graph <;> simp [h1, h2]

/-- C2: the resource type resolver returns the matching variant for each
LDP type link singly present, the unknown signal (`none`) when none of
the four is present, and selects by the priority NonRDFSource >
BasicContainer > DirectContainer > IndirectContainer when several are
present. -/
theorem parse_resource_type_priority (response : HttpResponse) :
    (ldpNonRDFSource ∈ parse_links response →
      parse_resource_type response = some ResourceKind.nonRDFSource)
    ∧ (ldpNonRDFSource ∉ parse_links response →
      ldpBasicContainer ∈ parse_links response →
      parse_resource_type response = some ResourceKind.basicContainer)
    ∧ (ldpNonRDFSource ∉ parse_links response →
      ldpBasicContainer ∉ parse_links response →
      ldpDirectContainer ∈ parse_links response →
      parse_resource_type response = some ResourceKind.directContainer)
    ∧ (ldpNonRDFSource ∉ parse_links response →
      ldpBasicContainer ∉ parse_links response →
      ldpDirectContainer ∉ parse_links response →
      ldpIndirectContainer ∈ parse_links response →
      parse_resource_type response = some ResourceKind.indirectContainer)
    ∧ (ldpNonRDFSource ∉ parse_links response →
      ldpBasicContainer ∉ parse_links response →
      ldpDirectContainer ∉ parse_links response →
      ldpIndirectContainer ∉ parse_links response →
      parse_resource_type response = none) := by
  refine ⟨?_, ?_, ?_, ?_, ?_⟩ <;> intros <;> simp only [parse_resource_type] <;> simp [*]

/-- C2 witness: NonRDFSource + BasicContainer both present resolves to
NonRDFSource; no LDP type link present resolves to the unknown
signal. -/
theorem parse_resource_type_priority_witness :
    parse_resource_type nonrdfBasicHead = some ResourceKind.nonRDFSource
    ∧ parse_resource_type plainHead = none :=
  ⟨(parse_resource_type_priority nonrdfBasicHead).1 (by decide),
   (parse_resource_type_priority plainHead).2.2.2.2
     (by decide) (by decide) (by decide) (by decide)⟩

/-- C3 counterexample: in the tombstone-recovery run the original create
request is a `PUT` (the caller used `specify_uri=True`) but the retried
create — `self.create()` with all-default arguments — issues a `POST`,
so the retried create is NOT equivalent to the original request.  The
full request log is: PUT x; DELETE x/fcr:tombstone; POST x; HEAD x;
GET x/fcr:metadata. -/
theorem create_tombstone_retry_not_equivalent :
    createRun.map (fun out => out.2.2.log)
      = Except.ok [⟨"PUT", resXuri⟩,
                   ⟨"DELETE", resXuri ++ "/fcr:tombstone"⟩,
                   ⟨"POST", resXuri⟩,
                   ⟨"HEAD", resXuri⟩,
                   ⟨"GET", resXuri ++ "/fcr:metadata"⟩] := rfl

/-- C3 amended: on a 410 with `ignore_tombstone` set, the client deletes
the tombstone marker and retries the create exactly once, the retry
using default creation parameters (minted-URI POST, default
serialization) rather than the original request's parameters; the
recovery run ends with `exists=true`, and exactly two create requests
and one tombstone-clear request are issued. -/
theorem create_tombstone_recovery :
    createRun.map (fun out =>
      (out.1,
       out.2.1.exists_,
       (out.2.2.log.filter (fun r => r.verb == "PUT" || r.verb == "POST")).length,
       (out.2.2.log.filter (fun r => r.uri == resXuri ++ "/fcr:tombstone")).length))
    = Except.ok (true, true, 2, 1) := rfl

/-- C4 counterexample: a Resource constructed from a 201 response has
`exists = False` — `__init__` only recognizes status 200. -/
theorem resource_init_201_not_exists :
    (Resource.init ResourceKind.basicContainer repo0 (some "x") none [] (some 201)).exists_
      = false := rfl

/-- C4 amended: at construction the `exists` flag is derived from the
provided HTTP status and is true exactly when that status is 200 (201
does not count; after `create()`'s 201 the flag becomes true only via
the follow-up refresh whose GET returns 200). -/
theorem resource_init_exists_iff_200 (kind : ResourceKind) (repo : Repo) (uri : Option String)
    (data : Option Graph) (headers : List (String × String)) (status_code : Option Nat) :
    (Resource.init kind repo uri data headers status_code).exists_ = true
      ↔ status_code = some 200 := by
  simp [Resource.init]

/-- C4 witness: construction from a 200 response yields `exists=true`. -/
theorem resource_init_exists_iff_200_witness :
    (Resource.init ResourceKind.basicContainer repo0 (some "x") (some []) [] (some 200)).exists_
      = true :=
  (resource_init_exists_iff_200 ResourceKind.basicContainer repo0 (some "x")
    (some []) [] (some 200)).mpr rfl

/-- C5 (code bug): `refresh()` on an existing resource whose HEAD probe
returns 404 RAISES instead of transitioning to the absent state:
`get_resource` returns Python `False`, and the guard
`type(updated_self) != type(self)` fires before the falsy check, so the
`_empty_resource_attributes` branch is unreachable. -/
theorem refresh_gone_raises :
    Resource.refresh resExisting { script := [{ status_code := 404 }] }
      = Except.error "Instantiated resource class, but repository reports this resource is bool" := rfl

/-- C6 (code bug): after a confirmed delete (204) the resource has
`exists=false` and empty headers, but `self.rdf` is Python `None` — not
a pair of empty graphs — because `_empty_resource_attributes` assigns
the `None` return value of `_build_rdf` to `self.rdf`. -/
theorem delete_204_rdf_none :
    (Resource.delete resExisting false { script := [{ status_code := 204 }] }).map
      (fun out => (out.1, out.2.1.exists_, out.2.1.headers, out.2.1.rdf, out.2.1.status_code))
    = Except.ok (true, false, [], none, some 404) := rfl

/-- C7 counterexample: with the added partition referencing the unbound
namespace `http://example.org/unknown#`, `build_query` does NOT fail:
it silently emits the update document with no prefix declaration for
that namespace (here: no PREFIX line at all). -/
theorem build_query_silent_on_missing_binding :
    sqUnknown.update_prefixes = []
    ∧ sqUnknown.build_query
      = "\nDELETE \x7b\n\x7d\n\n\nINSERT \x7b\n<http://localhost:8080/rest/x> <http://example.org/unknown#mystery> \"v\" .\n\x7d\n\nWHERE \x7b\x7d" :=
  ⟨rfl, rfl⟩

/-- C7 amended: a referenced namespace URI with no matching prefix
binding is silently skipped: `_derive_namespaces` never raises, the
emitted prefix map contains no entry for it, and every emitted prefix
is a registered binding whose namespace is actually referenced by some
predicate of the diff partitions. -/
theorem missing_binding_silently_omitted (sq : SparqlUpdate) (ns : String)
    (hns : ∀ kv ∈ sq.prefixes, kv.2 ≠ ns) :
    (∀ kv ∈ sq.update_prefixes, kv.2 ≠ ns)
    ∧ ∀ kv ∈ sq.update_prefixes, kv ∈ sq.prefixes
        ∧ ∃ t, (t ∈ sq.diffs.overlap ∨ t ∈ sq.diffs.removed ∨ t ∈ sq.diffs.added)
          ∧ t.predNs = kv.2 := by
  constructor
  · intro kv hkv
    exact hns kv (List.mem_filter.mp hkv).1
  · intro kv hkv
    have h := List.mem_filter.mp hkv
    refine ⟨h.1, ?_⟩
    have h2 : kv.2 ∈ sq.update_namespaces := by simpa using h.2
    rw [SparqlUpdate.update_namespaces, List.mem_dedup] at h2
    rcases List.mem_map.mp h2 with ⟨t, ht, hteq⟩
    refine ⟨t, ?_, hteq⟩
    simp only [List.mem_append] at ht
    tauto

/-- C7 witness: the general statement applied to the concrete
`sqUnknown` fixture and its unbound namespace. -/
theorem missing_binding_silently_omitted_witness :
    (∀ kv ∈ sqUnknown.update_prefixes, kv.2 ≠ "http://example.org/unknown#")
    ∧ ∀ kv ∈ sqUnknown.update_prefixes, kv ∈ sqUnknown.prefixes
        ∧ ∃ t, (t ∈ sqUnknown.diffs.overlap ∨ t ∈ sqUnknown.diffs.removed
            ∨ t ∈ sqUnknown.diffs.added)
          ∧ t.predNs = kv.2 :=
  missing_binding_silently_omitted sqUnknown "http://example.org/unknown#" (by decide)

/-- C8 counterexample: on an unexpected 500, `delete()` still returns
`True` and `update()` returns Python `None` — neither raises. -/
theorem delete_update_swallow_500 :
    (Resource.delete resExisting false { script := [{ status_code := 500 }] }).map
      (fun out => out.1) = Except.ok true
    ∧ (Resource.update resExisting false true { script := [{ status_code := 500 }] }).map
      (fun out => out.1) = Except.ok PyValue.pyNone :=
  ⟨rfl, rfl⟩

/-- C8 amended: `delete()` and `update()` are further exceptions to the
raise-on-failure policy: for any non-204 response, `delete()` returns
`True` leaving the resource untouched, and `update()` returns Python
`None`; neither raises. -/
theorem delete_update_no_raise (res : Resource) (rdf : RdfState) (resp : HttpResponse)
    (rest : List HttpResponse) (log : List Request)
    (hrdf : res.rdf = some rdf) (hkind : res.kind ≠ ResourceKind.nonRDFSource)
    (hst : resp.status_code ≠ 204) :
    Resource.delete res false { script := resp :: rest, log := log }
      = Except.ok (true, res, { script := rest, log := log ++ [⟨"DELETE", res.uri⟩] })
    ∧ (Resource.update res false true { script := resp :: rest, log := log }).map
      (fun out => out.1) = Except.ok PyValue.pyNone := by
  constructor
  · simp [Resource.delete, http_request, hst]
  · simp [Resource.update, http_request, hrdf, hst, hkind, Except.map]

/-- C8 witness: the amended statement at the concrete 500-response
fixture. -/
theorem delete_update_no_raise_witness :
    Resource.delete resExisting false { script := [{ status_code := 500 }] }
      = Except.ok (true, resExisting,
          { script := [], log := [⟨"DELETE", resExisting.uri⟩] })
    ∧ (Resource.update resExisting false true { script := [{ status_code := 500 }] }).map
      (fun out => out.1) = Except.ok PyValue.pyNone :=
  delete_update_no_raise resExisting (build_rdf repo0 true (some [])) { status_code := 500 }
    [] [] rfl (by decide) (by decide)

/-- C9 counterexample: `keep_alive()` against a 404 response RAISES —
only 410 is treated as the non-fatal transaction-gone case there. -/
theorem keep_alive_404_raises :
    Transaction.keep_alive txn0 { script := [{ status_code := 404 }] }
      = Except.error "HTTP error, could not continue transaction" := rfl

/-- C9 amended: `keep_alive()` returns a non-fatal `False` and
deactivates the transaction only on 410 (404 raises); `commit()` and
`rollback()` — both through the shared `_close` — return `False` and
deactivate on 404 or 410, and on a 204 success deactivate and return
`True`. -/
theorem txn_gone_handling (txn : Transaction) (resp : HttpResponse)
    (rest : List HttpResponse) (log : List Request) :
    (resp.status_code = 410 →
      Transaction.keep_alive txn { script := resp :: rest, log := log }
        = Except.ok (false, { txn with active := false },
            { script := rest, log := log ++ [⟨"POST", txn.root ++ "fcr:tx"⟩] }))
    ∧ (resp.status_code = 404 ∨ resp.status_code = 410 →
      Transaction.commit txn { script := resp :: rest, log := log }
        = Except.ok (false, { txn with active := false },
            { script := rest, log := log ++ [⟨"POST", txn.root ++ "fcr:tx/fcr:" ++ "commit"⟩] })
      ∧ Transaction.rollback txn { script := resp :: rest, log := log }
        = Except.ok (false, { txn with active := false },
            { script := rest, log := log ++ [⟨"POST", txn.root ++ "fcr:tx/fcr:" ++ "rollback"⟩] }))
    ∧ (resp.status_code = 204 →
      Transaction.commit txn { script := resp :: rest, log := log }
        = Except.ok (true, { txn with active := false },
            { script := rest, log := log ++ [⟨"POST", txn.root ++ "fcr:tx/fcr:" ++ "commit"⟩] })
      ∧ Transaction.rollback txn { script := resp :: rest, log := log }
        = Except.ok (true, { txn with active := false },
            { script := rest, log := log ++ [⟨"POST", txn.root ++ "fcr:tx/fcr:" ++ "rollback"⟩] })) := by
  refine ⟨?_, ?_, ?_⟩
  · intro h
    simp [Transaction.keep_alive, http_request, h]
  · intro h
    rcases h with h | h <;>
      constructor <;>
      simp [Transaction.commit, Transaction.rollback, Transaction.close_txn, http_request, h]
  · intro h
    constructor <;>
      simp [Transaction.commit, Transaction.rollback, Transaction.close_txn, http_request, h]

/-- C9 witness: keep_alive on 410 returns `False` deactivated; commit on
204 returns `True` deactivated. -/
theorem txn_gone_handling_witness :
    Transaction.keep_alive txn0 { script := [{ status_code := 410 }] }
      = Except.ok (false, { txn0 with active := false },
          { script := [], log := [⟨"POST", txn0.root ++ "fcr:tx"⟩] })
    ∧ Transaction.commit txn0 { script := [{ status_code := 204 }] }
      = Except.ok (true, { txn0 with active := false },
          { script := [], log := [⟨"POST", txn0.root ++ "fcr:tx/fcr:" ++ "commit"⟩] }) :=
  ⟨(txn_gone_handling txn0 { status_code := 410 } [] []).1 rfl,
   ((txn_gone_handling txn0 { status_code := 204 } [] []).2.2 rfl).1⟩

/-- C10: for any response status other than 200, 404 and 410,
`check_exists()` records the new status code, leaves `exists` unchanged
and returns that prior value; and it never raises for any response
status. -/
theorem check_exists_frame (res : Resource) (resp : HttpResponse) (rest : List HttpResponse)
    (log : List Request) (h200 : resp.status_code ≠ 200) (h404 : resp.status_code ≠ 404)
    (h410 : resp.status_code ≠ 410) :
    Resource.check_exists res { script := resp :: rest, log := log }
      = Except.ok (res.exists_, { res with status_code := some resp.status_code },
          { script := rest, log := log ++ [⟨"HEAD", res.uri⟩] })
    ∧ ∀ (resp2 : HttpResponse) (rest2 : List HttpResponse) (log2 : List Request) (e : String),
        Resource.check_exists res { script := resp2 :: rest2, log := log2 }
          ≠ Except.error e := by
  constructor
  · simp [Resource.check_exists, http_request, h200, h404, h410]
  · intro resp2 rest2 log2 e
    simp only [Resource.check_exists, http_request]
    split
    · simp
    · split
      · simp
      · split <;> simp

/-- C10 witness: a 500 response leaves `exists=true` on the existing
fixture, records status 500, and returns the prior value. -/
theorem check_exists_frame_witness :
    Resource.check_exists resExisting { script := [{ status_code := 500 }] }
      = Except.ok (true, { resExisting with status_code := some 500 },
          { script := [], log := [⟨"HEAD", resExisting.uri⟩] }) :=
  (check_exists_frame resExisting { status_code := 500 } [] []
    (by decide) (by decide) (by decide)).1

end Pyfc4
